import Mathlib

/-!
Shallow embedding of the video-ingestion pipeline of
`src/api/videos` (handlerUploadVideo, dbVideoToSignedVideo,
getVideoAspectRatio, processVideoForFastStart) from the repository
`learn-file-storage-s3-typescript-starter`.

Conventions of the embedding:
* Byte payloads are `List Nat` (each entry one byte).
* The local filesystem, the durable object storage (S3) and the metadata
  store are association lists keyed by strings; `insertA` conses, so the
  most recent binding shadows older ones (map semantics under `lookupA`).
* JavaScript numbers on the probe path are modelled as `Option ℚ`:
  `some q` is a value whose ToNumber coercion is the rational `q`;
  `none` is the NaN bucket (an absent field, a non-numeric value, or a
  division that produces NaN or ±Infinity — all of these make both
  tolerance comparisons of the classifier false, hence classify "other",
  exactly as the IEEE comparisons with NaN/Infinity do in the source).
* External processes (ffprobe, ffmpeg), the random-byte source and the
  presign nonce are oracles bundled in `Oracles`: one value per call,
  matching the single invocation of each in a run of the handler.
-/

/-- Byte strings: one `Nat` per byte. -/
def Bytes := List Nat

deriving instance DecidableEq, Repr for Bytes

/-- Association-list lookup: first binding for the key wins. -/
def lookupA {α : Type} : List (String × α) → String → Option α
  | [], _ => none
  | (k, v) :: rest, key => if k = key then some v else lookupA rest key

/-- Association-list insert; the new binding shadows any older one. -/
def insertA {α : Type} (m : List (String × α)) (k : String) (v : α) :
    List (String × α) :=
  (k, v) :: m

/-- Association-list removal of every binding for a key (file delete). -/
def removeA {α : Type} : List (String × α) → String → List (String × α)
  | [], _ => []
  | (k, v) :: rest, key =>
      if k = key then removeA rest key else (k, v) :: removeA rest key

/-- The video record of the metadata store (src/db/videos, declared there
and consumed by the handler): identifier, owner, and the two mutable
location fields.  `none` models a JavaScript null/undefined field. -/
structure Video where
  id : String
  userID : String
  videoURL : Option String
  thumbnailURL : Option String
deriving DecidableEq, Repr

/-- Modelled from the spec: Metadata Store `get(id) -> Record | absent`
(src/db/videos is not part of the provided sources). -/
def getVideo (db : List (String × Video)) (videoId : String) :
    Option Video :=
  lookupA db videoId

/-- Modelled from the spec: Metadata Store `update(record) -> void`,
keyed by the record's own identifier
(src/db/videos is not part of the provided sources). -/
def updateVideo (db : List (String × Video)) (video : Video) :
    List (String × Video) :=
  insertA db video.id video

/-- The mutable world the handler touches: the metadata store, durable
object storage, and the local (assets) filesystem. -/
structure St where
  db : List (String × Video)
  s3 : List (String × Bytes)
  localFs : List (String × Bytes)
deriving DecidableEq, Repr

/-- Configuration surface used on this path.  The database handle and
the S3 client live in `St`; the JWT secret is consumed by the external
Authenticator (out of scope, §1 of the spec), and the port is only used
on the thumbnail path. -/
structure ApiConfig where
  assetsRoot : String
deriving DecidableEq, Repr

/-- One form-data file part: declared size, declared MIME type and the
byte content delivered by `arrayBuffer()`.  The size check of the
handler reads the declared `.size`, the staged write reads `content`. -/
structure FilePart where
  size : Nat
  type : String
  content : Bytes
deriving DecidableEq, Repr

/-- The request as the handler sees it: the `videoId` path parameter
(absent = `none`), the actor identifier produced by the external
Authenticator (`validateJWT`, out of scope per §1), and the `video`
form field (`none` models an absent field or a non-File part). -/
structure UploadReq where
  videoId : Option String
  userID : String
  formVideo : Option FilePart
deriving DecidableEq, Repr

/-- Structured model of ffprobe's standard output after `JSON.parse`
and the `streams[0]` access chain of the source:
* `invalidJSON` — `JSON.parse(text)` throws a SyntaxError;
* `missingFirstStream` — the parse succeeds but `streams` is
  undefined/null, or `streams[0]` is undefined/null (empty array,
  non-array value, ...), so the property access chain throws a
  TypeError;
* `firstStream w h` — `streams[0]` is a proper value; `w`/`h` are the
  ToNumber coercions of its `width`/`height` fields (`none` = NaN). -/
inductive ProbeStdout where
  | invalidJSON : ProbeStdout
  | missingFirstStream : ProbeStdout
  | firstStream (width height : Option ℚ) : ProbeStdout
deriving DecidableEq, Repr

/-- Result of one ffprobe invocation: exit code, parsed stdout model,
and the captured stderr text. -/
structure FfprobeOutput where
  exitCode : Nat
  stdout : ProbeStdout
  stderr : String
deriving DecidableEq, Repr

deriving instance DecidableEq for Except

/-- Oracles for the effects outside the handler's control: the 32
random bytes of `randomBytes(32)`, the ffprobe run, the ffmpeg remux
run (`.ok` carries the produced file's bytes, `.error` the captured
stderr), and a nonce distinguishing independently generated presign
signatures. -/
structure Oracles where
  rand : List Nat
  probe : FfprobeOutput
  remux : Except String Bytes
  nonce : Nat
deriving DecidableEq, Repr

/-- Errors a run of the handler can finish with.  The first three are
the repository's error classes (`BadRequestError`, `NotFoundError`,
`UserForbiddenError`); `processingError` models a plain thrown `Error`
(the spec's `ProcessingError` class), carrying its message. -/
inductive UploadError where
  | badRequest (msg : String) : UploadError
  | notFound (msg : String) : UploadError
  | userForbidden (msg : String) : UploadError
  | processingError (msg : String) : UploadError
deriving DecidableEq, Repr

/-- The base64url alphabet (RFC 4648 §5), as used by Node's
`Buffer.toString("base64url")`. -/
def base64Alphabet : List Char :=
  ['A', 'B', 'C', 'D', 'E', 'F', 'G', 'H', 'I', 'J', 'K', 'L', 'M',
   'N', 'O', 'P', 'Q', 'R', 'S', 'T', 'U', 'V', 'W', 'X', 'Y', 'Z',
   'a', 'b', 'c', 'd', 'e', 'f', 'g', 'h', 'i', 'j', 'k', 'l', 'm',
   'n', 'o', 'p', 'q', 'r', 's', 't', 'u', 'v', 'w', 'x', 'y', 'z',
   '0', '1', '2', '3', '4', '5', '6', '7', '8', '9', '-', '_']

/-- Sextet-to-character table of base64url. -/
def b64Char (n : Nat) : Char :=
  base64Alphabet.getD n 'A'

/-- Base64url encoding of a byte list, without padding, exactly as
`Buffer.toString("base64url")` produces it.  The arithmetic
`b / 4 = b >>> 2` etc. is the usual bit slicing written with `%` and
`/` (equal on bytes `< 256`). -/
def base64urlEncode : List Nat → String
  | [] => ""
  | [b1] =>
      String.mk [b64Char (b1 / 4), b64Char (b1 % 4 * 16)]
  | [b1, b2] =>
      String.mk [b64Char (b1 / 4), b64Char (b1 % 4 * 16 + b2 / 16),
        b64Char (b2 % 16 * 4)]
  | b1 :: b2 :: b3 :: rest =>
      String.mk [b64Char (b1 / 4), b64Char (b1 % 4 * 16 + b2 / 16),
        b64Char (b2 % 16 * 4 + b3 / 64), b64Char (b3 % 64)] ++
      base64urlEncode rest

/-- Split a string at `/` characters (auxiliary list worker). -/
def splitSlashAux : List Char → List Char → List (List Char)
  | [], acc => [acc.reverse]
  | c :: rest, acc =>
      if c = '/' then acc.reverse :: splitSlashAux rest []
      else splitSlashAux rest (c :: acc)

/-- The source's `mediaType.split("/").at(-1)`: the last `/`-separated
component of the declared MIME type (its subtype). -/
def extOf (mediaType : String) : String :=
  String.mk ((splitSlashAux mediaType.toList []).getLastD [])

/-- The staged file's name: 32 oracle bytes in base64url, a dot, and
the MIME subtype (source line
`fileName = randomBytes(32).toString("base64url") + "." + extension`). -/
def mkFileName (rand : List Nat) (mediaType : String) : String :=
  base64urlEncode rand ++ "." ++ extOf mediaType

/-- `path.join(cfg.assetsRoot, fileName)`; the generated file name has
no separators, so join is concatenation with one separator. -/
def mkTargetPath (cfg : ApiConfig) (fileName : String) : String :=
  cfg.assetsRoot ++ "/" ++ fileName

/-- JavaScript division on the probe's numbers: NaN operands, and
division by zero (NaN or ±Infinity in the source) land in the `none`
bucket — every such value makes both tolerance comparisons false, as
the IEEE comparisons do. -/
def divJS : Option ℚ → Option ℚ → Option ℚ
  | some w, some h => if h = 0 then none else some (w / h)
  | _, _ => none

/-- The tolerance test chain of the source on the computed ratio:
landscape within 0.01 of 16/9, portrait within 0.01 of 9/16, otherwise
other; a NaN/Infinity ratio falls through both tests to "other". -/
def classifyRatio : Option ℚ → String
  | none => "other"
  | some r =>
      if |r - 16 / 9| < 1 / 100 then "landscape"
      else if |r - 9 / 16| < 1 / 100 then "portrait"
      else "other"

/-- The source's `getVideoAspectRatio(filePath)`: fail when ffprobe
exits non-zero (message carries the path and the diagnostic stream);
fail when `JSON.parse` or the `streams[0].width` access chain throws;
otherwise classify `width / height`. -/
def getVideoAspectRatio (filePath : String) (out : FfprobeOutput) :
    Except UploadError String :=
  if out.exitCode ≠ 0 then
    .error (.processingError
      ("Failed to read dimensions of " ++ filePath ++ ": \n" ++
        out.stderr))
  else
    match out.stdout with
    | .invalidJSON =>
        .error (.processingError "SyntaxError: JSON Parse error")
    | .missingFirstStream =>
        .error (.processingError
          "TypeError: undefined is not an object")
    | .firstStream w h => .ok (classifyRatio (divJS w h))

/-- The source's `processVideoForFastStart(filePath)`: derive the
output path `filePath ++ ".processed"`, run the remux oracle; on
non-zero exit fail with the diagnostic stream, on success the output
file now exists with the remuxed bytes. -/
def processVideoForFastStart (filePath : String)
    (remux : Except String Bytes) (fs : List (String × Bytes)) :
    Except UploadError (String × List (String × Bytes)) :=
  match remux with
  | .error diag =>
      .error (.processingError
        ("Failed to process video for fast start " ++ filePath ++
          ": \n" ++ diag))
  | .ok outBytes =>
      .ok (filePath ++ ".processed",
        insertA fs (filePath ++ ".processed") outBytes)

/-- Modelled from the spec: Durable Object Storage
`presign(key, ttlSeconds) -> URL` (the S3 client is an external
collaborator).  The URL embeds the target key, the expiry and a
signature component that may differ between invocations. -/
def presignURL (key : String) (expireTime : Nat) (nonce : Nat) :
    String :=
  "https://s3/" ++ key ++ "?expires=" ++ Nat.repr expireTime ++
    "&sig=" ++ Nat.repr nonce

/-- Modelled from the spec: the durable-storage object a signed URL
resolves to — the key between the storage authority and the query
string of the URL produced by `presignURL`. -/
def resolveTarget (url : String) : String :=
  String.mk ((url.toList.drop 11).takeWhile (fun c => c != '?'))

/-- The source's `generatePresignedURL(cfg, key, expireTime = 3600)`;
the nonce stands for the call-time-dependent signature input. -/
def generatePresignedURL (cfg : ApiConfig) (nonce : Nat) (key : String)
    (expireTime : Nat := 3600) : String :=
  presignURL key expireTime nonce

/-- The source's `dbVideoToSignedVideo(cfg, video)`: a falsy
`videoURL` (undefined/null/"") returns the record unchanged; otherwise
the view carries a presigned URL for the stored key in place of it. -/
def dbVideoToSignedVideo (cfg : ApiConfig) (nonce : Nat)
    (video : Video) : Video :=
  match video.videoURL with
  | none => video
  | some url =>
      if url = "" then video
      else { video with videoURL := some (generatePresignedURL cfg nonce url) }

/-- The source's `MAX_UPLOAD_SIZE = 1 << 30` (1 GiB). -/
def MAX_UPLOAD_SIZE : Nat := 1 <<< 30

/-- The source's `handlerUploadVideo(cfg, req)`, as a function of the
request, the effect oracles and the pre-state, returning the response
(or the propagated error) together with the post-state.  The
check/effect order is the source's line order; note that on a probe or
remux failure the staged file written at line 55 is still present in
the post-state, because the delete at line 58 is only reached on
success. -/
def handlerUploadVideo (cfg : ApiConfig) (req : UploadReq)
    (ox : Oracles) (st : St) : Except UploadError Video × St :=
  match req.videoId with
  | none => (.error (.badRequest "Invalid video ID"), st)
  | some vid =>
    if vid = "" then (.error (.badRequest "Invalid video ID"), st)
    else
      match req.formVideo with
      | none => (.error (.badRequest "Video is not a file"), st)
      | some videoData =>
        if videoData.size > MAX_UPLOAD_SIZE then
          (.error (.badRequest "Video is larger than 1GB"), st)
        else
          match getVideo st.db vid with
          | none => (.error (.notFound "Video not found"), st)
          | some video =>
            if video.userID ≠ req.userID then
              (.error (.userForbidden "Wrong user"), st)
            else if videoData.type ≠ "video/mp4" then
              (.error (.badRequest "Unsupported video format"), st)
            else
              let fileName := mkFileName ox.rand videoData.type
              let targetPath := mkTargetPath cfg fileName
              let fs1 := insertA st.localFs targetPath videoData.content
              match getVideoAspectRatio targetPath ox.probe with
              | .error e => (.error e, { st with localFs := fs1 })
              | .ok pfx =>
                match processVideoForFastStart targetPath ox.remux fs1 with
                | .error e => (.error e, { st with localFs := fs1 })
                | .ok (processedFilePath, fs2) =>
                  let fs3 := removeA fs2 targetPath
                  let localFileBytes :=
                    (lookupA fs3 processedFilePath).getD []
                  let key := pfx ++ "/" ++ fileName
                  let s3' := insertA st.s3 key localFileBytes
                  let fs4 := removeA fs3 processedFilePath
                  let video' := { video with videoURL := some key }
                  let db' := updateVideo st.db video'
                  (.ok (dbVideoToSignedVideo cfg ox.nonce video'),
                    { db := db', s3 := s3', localFs := fs4 })

/-! Concrete values used by the witness theorems. -/

/-- A configuration with assets root `/assets`. -/
def cfgC : ApiConfig := { assetsRoot := "/assets" }

/-- A stored record owned by `u1` with no storage-location yet. -/
def vidC : Video :=
  { id := "v1", userID := "u1", videoURL := none, thumbnailURL := none }

/-- A small valid MP4 file part. -/
def fC : FilePart :=
  { size := 3, type := "video/mp4", content := [1, 2, 3] }

/-- A well-formed upload request for `v1` by its owner. -/
def reqC : UploadReq :=
  { videoId := some "v1", userID := "u1", formVideo := some fC }

/-- A pre-state whose store holds exactly `v1`. -/
def stC : St := { db := [("v1", vidC)], s3 := [], localFs := [] }

/-- Oracles of a fully successful run: 32 random bytes, a probe result
with no usable dimensions (class `other`), a successful remux. -/
def oxC : Oracles :=
  { rand := List.replicate 32 0,
    probe := { exitCode := 0, stdout := .firstStream none none, stderr := "" },
    remux := .ok [7, 7], nonce := 5 }

/-- Oracles of a run whose remux process exits non-zero. -/
def oxFailC : Oracles :=
  { rand := List.replicate 32 0,
    probe := { exitCode := 0, stdout := .firstStream none none, stderr := "" },
    remux := .error "boom", nonce := 5 }

/-- The staged file name produced from 32 zero bytes. -/
def fileNameC : String :=
  "AAAAAAAAAAAAAAAAAAAAAAAAAAAAAAAAAAAAAAAAAAA.mp4"

/-- A stored record that already has a storage key set. -/
def vidWithURLC : Video :=
  { id := "v1", userID := "u1", videoURL := some "landscape/a.mp4",
    thumbnailURL := none }

/-- A request with no `videoId` path parameter. -/
def reqNoId : UploadReq :=
  { videoId := none, userID := "u1", formVideo := some fC }

/-- A request whose `video` form field is absent or not a file. -/
def reqNoFile : UploadReq :=
  { videoId := some "v1", userID := "u1", formVideo := none }

/-- A file part one byte over the 1 GiB ceiling. -/
def fBig : FilePart :=
  { size := 1073741825, type := "video/mp4", content := [] }

/-- A request carrying the oversized file part. -/
def reqBig : UploadReq :=
  { videoId := some "v1", userID := "u1", formVideo := some fBig }

/-- A file part of declared size exactly 2^30 (the ceiling itself). -/
def fBoundary : FilePart :=
  { size := 1073741824, type := "video/mp4", content := [] }

/-- A request carrying the boundary-sized file part. -/
def reqBoundary : UploadReq :=
  { videoId := some "v1", userID := "u1", formVideo := some fBoundary }

/-- A valid request authenticated as a non-owner. -/
def reqWrongUser : UploadReq :=
  { videoId := some "v1", userID := "u2", formVideo := some fC }

/-- A file part with an unsupported MIME type. -/
def fBadType : FilePart :=
  { size := 3, type := "video/avi", content := [1, 2, 3] }

/-- A request carrying the wrong-typed file part. -/
def reqBadType : UploadReq :=
  { videoId := some "v1", userID := "u1", formVideo := some fBadType }

/-- A pre-state with an empty metadata store. -/
def stEmpty : St := { db := [], s3 := [], localFs := [] }

/-! Helper lemmas shared by the claim theorems. -/

theorem lookupA_cons_self {α : Type} (m : List (String × α)) (k : String)
    (v : α) : lookupA ((k, v) :: m) k = some v := by
  simp [lookupA]

theorem string_ne_append_of_ne_empty (s t : String) (ht : t ≠ "") :
    s ++ t ≠ s := by
  intro h
  have hl := congrArg String.length h
  rw [String.length_append] at hl
  have : t.length = 0 := by omega
  exact ht (by
    cases t with
    | mk d =>
        cases d with
        | nil => rfl
        | cons c cs => simp [String.length, List.length] at this)

theorem processed_ne_target (s : String) : s ++ ".processed" ≠ s :=
  string_ne_append_of_ne_empty s ".processed" (by decide)

theorem b64Char_mem (n : Nat) : b64Char n ∈ base64Alphabet := by
  unfold b64Char
  by_cases h : n < base64Alphabet.length
  · rw [List.getD_eq_getElem _ _ h]
    exact List.getElem_mem h
  · rw [List.getD_eq_default _ _ (by omega)]
    decide

theorem takeWhile_until_qmark (l t : List Char) (h : ∀ c ∈ l, c ≠ '?') :
    (l ++ '?' :: t).takeWhile (fun c => c != '?') = l := by
  induction l with
  | nil => simp [List.takeWhile_cons]
  | cons c rest ih =>
      have hc : c ≠ '?' := h c (List.mem_cons_self c rest)
      simp only [List.cons_append, List.takeWhile_cons]
      simp [hc, ih (fun x hx => h x (List.mem_cons_of_mem c hx))]

theorem getVideoAspectRatio_error_shape (p : String) (o : FfprobeOutput)
    (e : UploadError) (h : getVideoAspectRatio p o = .error e) :
    ∃ m, e = .processingError m := by
  unfold getVideoAspectRatio at h
  split at h
  · exact ⟨_, (Except.error.inj h).symm⟩
  · split at h
    · exact ⟨_, (Except.error.inj h).symm⟩
    · exact ⟨_, (Except.error.inj h).symm⟩
    · exact absurd h (by simp)

theorem processVideoForFastStart_error_shape (p : String)
    (remux : Except String Bytes) (fs : List (String × Bytes))
    (e : UploadError) (h : processVideoForFastStart p remux fs = .error e) :
    ∃ m, e = .processingError m := by
  unfold processVideoForFastStart at h
  split at h
  · exact ⟨_, (Except.error.inj h).symm⟩
  · exact absurd h (by simp)

theorem base64urlEncode_length (l : List Nat) :
    (base64urlEncode l).length =
      4 * (l.length / 3) +
        (if l.length % 3 = 0 then 0 else l.length % 3 + 1) := by
  induction l using base64urlEncode.induct with
  | case1 => simp [base64urlEncode]
  | case2 b1 => simp [base64urlEncode]
  | case3 b1 b2 => simp [base64urlEncode]
  | case4 b1 b2 b3 rest ih =>
      simp only [base64urlEncode, String.length_append, ih]
      have h1 : (String.mk [b64Char (b1 / 4), b64Char (b1 % 4 * 16 + b2 / 16),
        b64Char (b2 % 16 * 4 + b3 / 64), b64Char (b3 % 64)]).length = 4 := rfl
      rw [h1]
      simp only [List.length_cons]
      split_ifs <;> omega

theorem base64urlEncode_chars (l : List Nat) :
    ∀ c ∈ (base64urlEncode l).toList, c ∈ base64Alphabet := by
  induction l using base64urlEncode.induct with
  | case1 => intro c hc; simp [base64urlEncode, String.toList] at hc
  | case2 b1 =>
      intro c hc
      simp only [base64urlEncode, String.toList, List.mem_cons,
        List.not_mem_nil, or_false] at hc
      rcases hc with h | h <;> subst h <;> exact b64Char_mem _
  | case3 b1 b2 =>
      intro c hc
      simp only [base64urlEncode, String.toList, List.mem_cons,
        List.not_mem_nil, or_false] at hc
      rcases hc with h | h | h <;> subst h <;> exact b64Char_mem _
  | case4 b1 b2 b3 rest ih =>
      intro c hc
      have ht : (String.mk [b64Char (b1 / 4), b64Char (b1 % 4 * 16 + b2 / 16),
          b64Char (b2 % 16 * 4 + b3 / 64), b64Char (b3 % 64)] ++
          base64urlEncode rest).toList =
          [b64Char (b1 / 4), b64Char (b1 % 4 * 16 + b2 / 16),
            b64Char (b2 % 16 * 4 + b3 / 64), b64Char (b3 % 64)] ++
          (base64urlEncode rest).toList := rfl
      simp only [base64urlEncode] at hc
      rw [ht] at hc
      rcases List.mem_append.mp hc with h | h
      · simp only [List.mem_cons, List.not_mem_nil, or_false] at h
        rcases h with h | h | h | h <;> subst h <;> exact b64Char_mem _
      · exact ih c h

theorem resolveTarget_presign (k : String) (e n : Nat)
    (hq : ∀ c ∈ k.toList, c ≠ '?') :
    resolveTarget (presignURL k e n) = k := by
  unfold resolveTarget presignURL
  have hdata : ("https://s3/" ++ k ++ "?expires=" ++ Nat.repr e ++
      "&sig=" ++ Nat.repr n).toList =
      "https://s3/".toList ++ k.toList ++ "?expires=".toList ++
        (Nat.repr e).toList ++ "&sig=".toList ++ (Nat.repr n).toList := rfl
  rw [hdata]
  simp only [List.append_assoc]
  have hdrop : ∀ X : List Char,
      List.drop 11 ("https://s3/".toList ++ X) = X := by
    intro X
    have h2 := List.drop_left "https://s3/".toList X
    rw [show ("https://s3/".toList).length = 11 from rfl] at h2
    exact h2
  rw [hdrop]
  have hsplit : "?expires=".toList ++ ((Nat.repr e).toList ++
      ("&sig=".toList ++ (Nat.repr n).toList)) =
      '?' :: ("expires=".toList ++ ((Nat.repr e).toList ++
        ("&sig=".toList ++ (Nat.repr n).toList))) := rfl
  rw [hsplit, takeWhile_until_qmark _ _ hq]
  rfl

theorem ratio_disjoint (r : ℚ) (h1 : |r - 16 / 9| < 1 / 100) :
    ¬ |r - 9 / 16| < 1 / 100 := by
  intro h2
  rw [abs_sub_lt_iff] at h1 h2
  linarith [h1.1, h1.2, h2.1, h2.2]

theorem getVideoAspectRatio_firstStream (p e : String) (w h : ℚ)
    (hh : h ≠ 0) :
    getVideoAspectRatio p ⟨0, .firstStream (some w) (some h), e⟩ =
      .ok (classifyRatio (some (w / h))) := by
  simp [getVideoAspectRatio, divJS, hh]

/-- C3: the geometry classification returns landscape iff the probed
ratio is within 0.01 of 16/9, portrait iff within 0.01 of 9/16, and
other exactly otherwise; a ratio of 16/9 ± 0.0099 classifies
landscape and 16/9 ± 0.0101 classifies other. -/
theorem getVideoAspectRatio_classification (p e : String) (w h : ℚ)
    (hh : h ≠ 0) :
    ( getVideoAspectRatio p ⟨0, .firstStream (some w) (some h), e⟩ =
        .ok "landscape" ↔ |w / h - 16 / 9| < 1 / 100)
  ∧ ( getVideoAspectRatio p ⟨0, .firstStream (some w) (some h), e⟩ =
        .ok "portrait" ↔ |w / h - 9 / 16| < 1 / 100)
  ∧ ( getVideoAspectRatio p ⟨0, .firstStream (some w) (some h), e⟩ =
        .ok "other" ↔
        (¬ |w / h - 16 / 9| < 1 / 100 ∧ ¬ |w / h - 9 / 16| < 1 / 100))
  ∧ getVideoAspectRatio p
      ⟨0, .firstStream (some (16 / 9 + 99 / 10000)) (some 1), e⟩ =
      .ok "landscape"
  ∧ getVideoAspectRatio p
      ⟨0, .firstStream (some (16 / 9 - 99 / 10000)) (some 1), e⟩ =
      .ok "landscape"
  ∧ getVideoAspectRatio p
      ⟨0, .firstStream (some (16 / 9 + 101 / 10000)) (some 1), e⟩ =
      .ok "other"
  ∧ getVideoAspectRatio p
      ⟨0, .firstStream (some (16 / 9 - 101 / 10000)) (some 1), e⟩ =
      .ok "other" := by
  have hred := getVideoAspectRatio_firstStream p e w h hh
  refine ⟨?_, ?_, ?_, ?_, ?_, ?_, ?_⟩
  · rw [hred]
    simp only [classifyRatio]
    by_cases h1 : |w / h - 16 / 9| < 1 / 100
    · rw [if_pos h1]
      exact iff_of_true rfl h1
    · rw [if_neg h1]
      by_cases h2 : |w / h - 9 / 16| < 1 / 100
      · rw [if_pos h2]
        exact iff_of_false (by decide) h1
      · rw [if_neg h2]
        exact iff_of_false (by decide) h1
  · rw [hred]
    simp only [classifyRatio]
    by_cases h1 : |w / h - 16 / 9| < 1 / 100
    · rw [if_pos h1]
      exact iff_of_false (by decide) (ratio_disjoint _ h1)
    · rw [if_neg h1]
      by_cases h2 : |w / h - 9 / 16| < 1 / 100
      · rw [if_pos h2]
        exact iff_of_true rfl h2
      · rw [if_neg h2]
        exact iff_of_false (by decide) h2
  · rw [hred]
    simp only [classifyRatio]
    by_cases h1 : |w / h - 16 / 9| < 1 / 100
    · rw [if_pos h1]
      exact iff_of_false (by decide) (fun hc => hc.1 h1)
    · rw [if_neg h1]
      by_cases h2 : |w / h - 9 / 16| < 1 / 100
      · rw [if_pos h2]
        exact iff_of_false (by decide) (fun hc => hc.2 h2)
      · rw [if_neg h2]
        exact iff_of_true rfl ⟨h1, h2⟩
  · rw [getVideoAspectRatio_firstStream p e _ 1 one_ne_zero]
    norm_num [classifyRatio, abs_sub_lt_iff, abs_lt]
  · rw [getVideoAspectRatio_firstStream p e _ 1 one_ne_zero]
    norm_num [classifyRatio, abs_sub_lt_iff, abs_lt]
  · rw [getVideoAspectRatio_firstStream p e _ 1 one_ne_zero]
    norm_num [classifyRatio, abs_sub_lt_iff, abs_lt]
  · rw [getVideoAspectRatio_firstStream p e _ 1 one_ne_zero]
    norm_num [classifyRatio, abs_sub_lt_iff, abs_lt]

/-- Witness for C3 at width 16, height 9 (exact 16:9). -/
theorem getVideoAspectRatio_classification_witness :
    (9 : ℚ) ≠ 0 ∧
    (( getVideoAspectRatio "p" ⟨0, .firstStream (some 16) (some 9), ""⟩ =
        .ok "landscape" ↔ |(16 : ℚ) / 9 - 16 / 9| < 1 / 100)
  ∧ ( getVideoAspectRatio "p" ⟨0, .firstStream (some 16) (some 9), ""⟩ =
        .ok "portrait" ↔ |(16 : ℚ) / 9 - 9 / 16| < 1 / 100)
  ∧ ( getVideoAspectRatio "p" ⟨0, .firstStream (some 16) (some 9), ""⟩ =
        .ok "other" ↔
        (¬ |(16 : ℚ) / 9 - 16 / 9| < 1 / 100 ∧
          ¬ |(16 : ℚ) / 9 - 9 / 16| < 1 / 100))
  ∧ getVideoAspectRatio "p"
      ⟨0, .firstStream (some (16 / 9 + 99 / 10000)) (some 1), ""⟩ =
      .ok "landscape"
  ∧ getVideoAspectRatio "p"
      ⟨0, .firstStream (some (16 / 9 - 99 / 10000)) (some 1), ""⟩ =
      .ok "landscape"
  ∧ getVideoAspectRatio "p"
      ⟨0, .firstStream (some (16 / 9 + 101 / 10000)) (some 1), ""⟩ =
      .ok "other"
  ∧ getVideoAspectRatio "p"
      ⟨0, .firstStream (some (16 / 9 - 101 / 10000)) (some 1), ""⟩ =
      .ok "other") :=
  ⟨by decide, getVideoAspectRatio_classification "p" "" 16 9 (by decide)⟩

/-- C9: a record whose storage-location is unset (or the empty string,
also falsy in the source's check) passes through dbVideoToSignedVideo
unchanged; no presigned URL is generated for it. -/
theorem dbVideoToSignedVideo_falsy_unchanged (cfg : ApiConfig)
    (nonce : Nat) (video : Video)
    (h : video.videoURL = none ∨ video.videoURL = some "") :
    dbVideoToSignedVideo cfg nonce video = video := by
  rcases h with h | h <;> simp [dbVideoToSignedVideo, h]

/-- Witness for C9 on a record with no storage-location. -/
theorem dbVideoToSignedVideo_falsy_unchanged_witness :
    (vidC.videoURL = none ∨ vidC.videoURL = some "") ∧
    dbVideoToSignedVideo cfgC 5 vidC = vidC :=
  ⟨Or.inl rfl, dbVideoToSignedVideo_falsy_unchanged cfgC 5 vidC (Or.inl rfl)⟩

/-- C10 counterexample: valid JSON, a non-empty streams list, but a
first entry with no numeric width — yet the function returns the
geometry class `other` instead of failing, because the division
produces NaN and both tolerance comparisons are false. -/
theorem getVideoAspectRatio_missing_width_counterexample :
    getVideoAspectRatio "/assets/v.mp4"
      ⟨0, .firstStream none (some 1080), ""⟩ = .ok "other" := by
  simp [getVideoAspectRatio, divJS, classifyRatio]

/-- C10 as amended: the function fails (never returns a class) when
the probe exits non-zero, when its stdout is not valid JSON, and when
the streams list is missing or empty; but when the first stream entry
exists with a missing or non-numeric width or height, or a zero
height, the division yields NaN/Infinity and the function returns
`other` rather than failing. -/
theorem getVideoAspectRatio_failure_modes (p e : String) :
    (∀ s, getVideoAspectRatio p ⟨0, .invalidJSON, e⟩ ≠ .ok s)
  ∧ (∀ s, getVideoAspectRatio p ⟨0, .missingFirstStream, e⟩ ≠ .ok s)
  ∧ (∀ c o, c ≠ 0 → ∀ s, getVideoAspectRatio p ⟨c, o, e⟩ ≠ .ok s)
  ∧ (∀ hgt, getVideoAspectRatio p ⟨0, .firstStream none hgt, e⟩ =
      .ok "other")
  ∧ (∀ w, getVideoAspectRatio p ⟨0, .firstStream w none, e⟩ =
      .ok "other")
  ∧ (∀ w, getVideoAspectRatio p
      ⟨0, .firstStream (some w) (some 0), e⟩ = .ok "other") := by
  refine ⟨?_, ?_, ?_, ?_, ?_, ?_⟩
  · intro s hcon
    simp [getVideoAspectRatio] at hcon
  · intro s hcon
    simp [getVideoAspectRatio] at hcon
  · intro c o hc s hcon
    simp [getVideoAspectRatio, hc] at hcon
  · intro hgt
    cases hgt <;> simp [getVideoAspectRatio, divJS, classifyRatio]
  · intro w
    cases w <;> simp [getVideoAspectRatio, divJS, classifyRatio]
  · intro w
    simp [getVideoAspectRatio, divJS, classifyRatio]

/-- Witness for C10's amended statement at concrete probe outputs. -/
theorem getVideoAspectRatio_failure_modes_witness :
    ( getVideoAspectRatio "q" ⟨0, .invalidJSON, "x"⟩ ≠ .ok "other")
  ∧ ( getVideoAspectRatio "q" ⟨1, .firstStream (some 16) (some 9), "x"⟩ ≠
      .ok "landscape")
  ∧ getVideoAspectRatio "q" ⟨0, .firstStream none (some 2), "x"⟩ =
      .ok "other" :=
  ⟨(getVideoAspectRatio_failure_modes "q" "x").1 "other",
    (getVideoAspectRatio_failure_modes "q" "x").2.2.1 1
      (.firstStream (some 16) (some 9)) (by decide) "landscape",
    (getVideoAspectRatio_failure_modes "q" "x").2.2.2.1 (some 2)⟩

/-- C6: signing the same stored key twice (possibly with different
signature nonces) yields URLs that both resolve to that key — the
signatures may differ, the target object does not. -/
theorem dbVideoToSignedVideo_same_target (cfg : ApiConfig) (v : Video)
    (k : String) (n1 n2 : Nat) (hk : v.videoURL = some k)
    (hne : k ≠ "") (hq : ∀ c ∈ k.toList, c ≠ '?') :
    (dbVideoToSignedVideo cfg n1 v).videoURL =
      some (presignURL k 3600 n1)
  ∧ (dbVideoToSignedVideo cfg n2 v).videoURL =
      some (presignURL k 3600 n2)
  ∧ resolveTarget (presignURL k 3600 n1) = k
  ∧ resolveTarget (presignURL k 3600 n2) = k := by
  refine ⟨?_, ?_, resolveTarget_presign k 3600 n1 hq,
    resolveTarget_presign k 3600 n2 hq⟩ <;>
    simp [dbVideoToSignedVideo, hk, hne, generatePresignedURL]

/-- Witness for C6 on a record holding the key `landscape/a.mp4`,
signed with two different nonces. -/
theorem dbVideoToSignedVideo_same_target_witness :
    (vidWithURLC.videoURL = some "landscape/a.mp4" ∧
      ("landscape/a.mp4" : String) ≠ "") ∧
    ((dbVideoToSignedVideo cfgC 1 vidWithURLC).videoURL =
      some (presignURL "landscape/a.mp4" 3600 1)
  ∧ (dbVideoToSignedVideo cfgC 2 vidWithURLC).videoURL =
      some (presignURL "landscape/a.mp4" 3600 2)
  ∧ resolveTarget (presignURL "landscape/a.mp4" 3600 1) =
      "landscape/a.mp4"
  ∧ resolveTarget (presignURL "landscape/a.mp4" 3600 2) =
      "landscape/a.mp4") :=
  ⟨⟨rfl, by decide⟩,
    dbVideoToSignedVideo_same_target cfgC vidWithURLC "landscape/a.mp4"
      1 2 rfl (by decide) (by decide)⟩

/-- C8: the staged file name is the base64url rendering of the 32
random bytes followed by a dot and the MIME subtype (`mp4` for
`video/mp4`), the rendering is 43 URL-safe alphabet characters, and
the Stream Optimizer writes its output to exactly
`{staged-file-path}.processed`. -/
theorem staged_name_and_processed_path (rand : List Nat)
    (hlen : rand.length = 32) :
    (∀ t, mkFileName rand t = base64urlEncode rand ++ "." ++ extOf t)
  ∧ extOf "video/mp4" = "mp4"
  ∧ (base64urlEncode rand).length = 43
  ∧ (∀ c ∈ (base64urlEncode rand).toList, c ∈ base64Alphabet)
  ∧ (∀ p fs out, processVideoForFastStart p (.ok out) fs =
      .ok (p ++ ".processed", insertA fs (p ++ ".processed") out)) := by
  refine ⟨fun t => rfl, rfl, ?_, base64urlEncode_chars rand,
    fun p fs out => rfl⟩
  rw [base64urlEncode_length rand, hlen]
  decide

/-- Witness for C8 with 32 zero bytes. -/
theorem staged_name_and_processed_path_witness :
    (List.replicate 32 0).length = 32 ∧
    ((∀ t, mkFileName (List.replicate 32 0) t =
        base64urlEncode (List.replicate 32 0) ++ "." ++ extOf t)
  ∧ extOf "video/mp4" = "mp4"
  ∧ (base64urlEncode (List.replicate 32 0)).length = 43
  ∧ (∀ c ∈ (base64urlEncode (List.replicate 32 0)).toList,
      c ∈ base64Alphabet)
  ∧ (∀ p fs out, processVideoForFastStart p (.ok out) fs =
      .ok (p ++ ".processed", insertA fs (p ++ ".processed") out))) :=
  ⟨rfl, staged_name_and_processed_path (List.replicate 32 0) rfl⟩

theorem removeA_cons_ne {α : Type} (m : List (String × α))
    (k key : String) (v : α) (h : k ≠ key) :
    removeA ((k, v) :: m) key = (k, v) :: removeA m key := by
  simp [removeA, h]

theorem uploadVideo_success_run (cfg : ApiConfig) (req : UploadReq)
    (ox : Oracles) (st : St) (vid : String) (f : FilePart) (v : Video)
    (pfx : String) (out : Bytes)
    (hid : req.videoId = some vid) (hvne : vid ≠ "")
    (hf : req.formVideo = some f) (hsize : ¬ f.size > MAX_UPLOAD_SIZE)
    (hv : getVideo st.db vid = some v)
    (howner : v.userID = req.userID) (htype : f.type = "video/mp4")
    (hp : getVideoAspectRatio (mkTargetPath cfg (mkFileName ox.rand f.type))
        ox.probe = .ok pfx)
    (hr : ox.remux = .ok out) :
    handlerUploadVideo cfg req ox st =
      (.ok (dbVideoToSignedVideo cfg ox.nonce
          { v with
              videoURL := some (pfx ++ "/" ++ mkFileName ox.rand f.type) }),
        { db := updateVideo st.db
            { v with
                videoURL := some (pfx ++ "/" ++ mkFileName ox.rand f.type) },
          s3 := insertA st.s3
            (pfx ++ "/" ++ mkFileName ox.rand f.type) out,
          localFs :=
            removeA (removeA (insertA
              (insertA st.localFs
                (mkTargetPath cfg (mkFileName ox.rand f.type)) f.content)
              (mkTargetPath cfg (mkFileName ox.rand f.type) ++ ".processed")
              out)
              (mkTargetPath cfg (mkFileName ox.rand f.type)))
              (mkTargetPath cfg (mkFileName ox.rand f.type) ++
                ".processed") }) := by
  have hne1 : mkTargetPath cfg (mkFileName ox.rand f.type) ++ ".processed" ≠
      mkTargetPath cfg (mkFileName ox.rand f.type) := processed_ne_target _
  simp only [handlerUploadVideo, hid, hf, hv, hr, hp,
    processVideoForFastStart]
  simp [hvne, hsize, howner, htype, insertA, hne1, updateVideo]
  rw [removeA_cons_ne _ _ _ _
    (processed_ne_target (mkTargetPath cfg (mkFileName ox.rand "video/mp4")))]
  simp [lookupA]

theorem key_ne_empty (a b : String) : a ++ "/" ++ b ≠ "" := by
  intro hcon
  have h1 := congrArg String.length hcon
  rw [String.length_append, String.length_append] at h1
  have h2 : ("/" : String).length = 1 := rfl
  have h3 : ("" : String).length = 0 := rfl
  rw [h2, h3] at h1
  omega

theorem presignURL_ne_key (k : String) (e n : Nat) :
    presignURL k e n ≠ k := by
  intro hcon
  have h1 := congrArg String.length hcon
  simp only [presignURL, String.length_append] at h1
  have h2 : ("https://s3/" : String).length = 11 := rfl
  rw [h2] at h1
  omega

/-- C1: a successful run persists the storage-location
`{geometry-class}/{staged-file-name}` on the record, durable storage
then holds an object at exactly that key whose bytes are the remux
(Stream Optimizer) output, and whenever that output differs from the
staged bytes the stored object is not the pre-optimization bytes. -/
theorem uploadVideo_storage_invariant (cfg : ApiConfig) (req : UploadReq)
    (ox : Oracles) (st : St) (vid : String) (f : FilePart) (v : Video)
    (pfx : String) (out : Bytes)
    (hid : req.videoId = some vid) (hvne : vid ≠ "")
    (hf : req.formVideo = some f) (hsize : ¬ f.size > MAX_UPLOAD_SIZE)
    (hv : getVideo st.db vid = some v) (hvid : v.id = vid)
    (howner : v.userID = req.userID) (htype : f.type = "video/mp4")
    (hp : getVideoAspectRatio (mkTargetPath cfg (mkFileName ox.rand f.type))
        ox.probe = .ok pfx)
    (hr : ox.remux = .ok out) :
    (handlerUploadVideo cfg req ox st).1 =
      .ok (dbVideoToSignedVideo cfg ox.nonce
        { v with
            videoURL := some (pfx ++ "/" ++ mkFileName ox.rand f.type) })
  ∧ getVideo ((handlerUploadVideo cfg req ox st).2).db vid =
      some { v with
              videoURL := some (pfx ++ "/" ++ mkFileName ox.rand f.type) }
  ∧ lookupA ((handlerUploadVideo cfg req ox st).2).s3
      (pfx ++ "/" ++ mkFileName ox.rand f.type) = some out
  ∧ (out ≠ f.content →
      lookupA ((handlerUploadVideo cfg req ox st).2).s3
        (pfx ++ "/" ++ mkFileName ox.rand f.type) ≠ some f.content) := by
  have hrun := uploadVideo_success_run cfg req ox st vid f v pfx out hid
    hvne hf hsize hv howner htype hp hr
  rw [hrun]
  refine ⟨rfl, ?_, ?_, ?_⟩
  · simp [getVideo, updateVideo, insertA, lookupA, hvid]
  · simp [insertA, lookupA]
  · intro hne
    simp [insertA, lookupA, hne]

/-- C5: the response of a successful run carries a presigned URL for
the stored key with the default validity 3600 seconds, while the
record persisted to the metadata store holds the raw storage key,
which is never equal to the signed form. -/
theorem uploadVideo_signed_view (cfg : ApiConfig) (req : UploadReq)
    (ox : Oracles) (st : St) (vid : String) (f : FilePart) (v : Video)
    (pfx : String) (out : Bytes)
    (hid : req.videoId = some vid) (hvne : vid ≠ "")
    (hf : req.formVideo = some f) (hsize : ¬ f.size > MAX_UPLOAD_SIZE)
    (hv : getVideo st.db vid = some v) (hvid : v.id = vid)
    (howner : v.userID = req.userID) (htype : f.type = "video/mp4")
    (hp : getVideoAspectRatio (mkTargetPath cfg (mkFileName ox.rand f.type))
        ox.probe = .ok pfx)
    (hr : ox.remux = .ok out) :
    (handlerUploadVideo cfg req ox st).1 =
      .ok { v with
              videoURL := some (presignURL
                (pfx ++ "/" ++ mkFileName ox.rand f.type) 3600 ox.nonce) }
  ∧ getVideo ((handlerUploadVideo cfg req ox st).2).db vid =
      some { v with
              videoURL := some (pfx ++ "/" ++ mkFileName ox.rand f.type) }
  ∧ presignURL (pfx ++ "/" ++ mkFileName ox.rand f.type) 3600 ox.nonce ≠
      pfx ++ "/" ++ mkFileName ox.rand f.type := by
  have hrun := uploadVideo_success_run cfg req ox st vid f v pfx out hid
    hvne hf hsize hv howner htype hp hr
  rw [hrun]
  refine ⟨?_, ?_, presignURL_ne_key _ 3600 ox.nonce⟩
  · simp [dbVideoToSignedVideo, generatePresignedURL]
    intro hcon
    exact absurd hcon (key_ne_empty pfx (mkFileName ox.rand f.type))
  · simp [getVideo, updateVideo, insertA, lookupA, hvid]

/-- C4 as amended: when the remux process exits non-zero, the handler
fails with the processing error carrying the captured diagnostic
stream, the metadata store and durable storage are unchanged — but the
StagedFile is NOT deleted: it remains in local storage, because the
delete step after the optimizer call is never reached. -/
theorem uploadVideo_remux_failure (cfg : ApiConfig) (req : UploadReq)
    (ox : Oracles) (st : St) (vid : String) (f : FilePart) (v : Video)
    (pfx diag : String)
    (hid : req.videoId = some vid) (hvne : vid ≠ "")
    (hf : req.formVideo = some f) (hsize : ¬ f.size > MAX_UPLOAD_SIZE)
    (hv : getVideo st.db vid = some v)
    (howner : v.userID = req.userID) (htype : f.type = "video/mp4")
    (hp : getVideoAspectRatio (mkTargetPath cfg (mkFileName ox.rand f.type))
        ox.probe = .ok pfx)
    (hr : ox.remux = .error diag) :
    handlerUploadVideo cfg req ox st =
      (.error (.processingError ("Failed to process video for fast start " ++
          mkTargetPath cfg (mkFileName ox.rand f.type) ++ ": \n" ++ diag)),
        { st with
            localFs := insertA st.localFs
              (mkTargetPath cfg (mkFileName ox.rand f.type)) f.content })
  ∧ lookupA ((handlerUploadVideo cfg req ox st).2).localFs
      (mkTargetPath cfg (mkFileName ox.rand f.type)) = some f.content
  ∧ ((handlerUploadVideo cfg req ox st).2).db = st.db
  ∧ ((handlerUploadVideo cfg req ox st).2).s3 = st.s3 := by
  have hmain : handlerUploadVideo cfg req ox st =
      (.error (.processingError ("Failed to process video for fast start " ++
          mkTargetPath cfg (mkFileName ox.rand f.type) ++ ": \n" ++ diag)),
        { st with
            localFs := insertA st.localFs
              (mkTargetPath cfg (mkFileName ox.rand f.type)) f.content }) := by
    simp only [handlerUploadVideo, hid, hf, hv, hp, hr,
      processVideoForFastStart]
    simp [hvne, hsize, howner, htype, insertA]
  rw [hmain]
  refine ⟨rfl, ?_, rfl, rfl⟩
  simp [insertA, lookupA]

/-- C4 counterexample to the claim as stated: a concrete run in which
the remux process fails; the handler raises the processing error and
the record and durable storage are untouched, yet the StagedFile is
still present in local storage afterwards — it was not deleted by any
cleanup handling. -/
theorem uploadVideo_remux_failure_counterexample :
    (handlerUploadVideo cfgC reqC oxFailC stC).1 =
      .error (.processingError ("Failed to process video for fast start /assets/" ++
        fileNameC ++ ": \nboom"))
  ∧ lookupA ((handlerUploadVideo cfgC reqC oxFailC stC).2).localFs
      ("/assets/" ++ fileNameC) = some [1, 2, 3]
  ∧ ((handlerUploadVideo cfgC reqC oxFailC stC).2).db = stC.db
  ∧ ((handlerUploadVideo cfgC reqC oxFailC stC).2).s3 = stC.s3 := by
  refine ⟨rfl, rfl, rfl, rfl⟩

/-- Witness for C4's amended statement on the same concrete run. -/
theorem uploadVideo_remux_failure_witness :
    (reqC.videoId = some "v1" ∧ oxFailC.remux = .error "boom") ∧
    (handlerUploadVideo cfgC reqC oxFailC stC =
      (.error (.processingError ("Failed to process video for fast start " ++
          mkTargetPath cfgC (mkFileName oxFailC.rand fC.type) ++ ": \nboom")),
        { stC with
            localFs := insertA stC.localFs
              (mkTargetPath cfgC (mkFileName oxFailC.rand fC.type)) fC.content })
  ∧ lookupA ((handlerUploadVideo cfgC reqC oxFailC stC).2).localFs
      (mkTargetPath cfgC (mkFileName oxFailC.rand fC.type)) = some fC.content
  ∧ ((handlerUploadVideo cfgC reqC oxFailC stC).2).db = stC.db
  ∧ ((handlerUploadVideo cfgC reqC oxFailC stC).2).s3 = stC.s3) :=
  ⟨⟨rfl, rfl⟩,
    uploadVideo_remux_failure cfgC reqC oxFailC stC "v1" fC vidC "other"
      "boom" rfl (by decide) rfl (by decide) rfl rfl rfl rfl rfl⟩

/-- C2: the six preconditions are checked in the source order — path
parameter, file part, size ceiling, record existence, ownership, MIME
type — each with its own failure class, and every precondition failure
returns with the pre-state unchanged (no local or durable write). -/
theorem uploadVideo_precondition_order (cfg : ApiConfig)
    (req : UploadReq) (ox : Oracles) (st : St) :
    (req.videoId = none ∨ req.videoId = some "" →
      handlerUploadVideo cfg req ox st =
        (.error (.badRequest "Invalid video ID"), st))
  ∧ (∀ vid, req.videoId = some vid → vid ≠ "" → req.formVideo = none →
      handlerUploadVideo cfg req ox st =
        (.error (.badRequest "Video is not a file"), st))
  ∧ (∀ vid f, req.videoId = some vid → vid ≠ "" →
      req.formVideo = some f → f.size > MAX_UPLOAD_SIZE →
      handlerUploadVideo cfg req ox st =
        (.error (.badRequest "Video is larger than 1GB"), st))
  ∧ (∀ vid f, req.videoId = some vid → vid ≠ "" →
      req.formVideo = some f → ¬ f.size > MAX_UPLOAD_SIZE →
      getVideo st.db vid = none →
      handlerUploadVideo cfg req ox st =
        (.error (.notFound "Video not found"), st))
  ∧ (∀ vid f v, req.videoId = some vid → vid ≠ "" →
      req.formVideo = some f → ¬ f.size > MAX_UPLOAD_SIZE →
      getVideo st.db vid = some v → v.userID ≠ req.userID →
      handlerUploadVideo cfg req ox st =
        (.error (.userForbidden "Wrong user"), st))
  ∧ (∀ vid f v, req.videoId = some vid → vid ≠ "" →
      req.formVideo = some f → ¬ f.size > MAX_UPLOAD_SIZE →
      getVideo st.db vid = some v → v.userID = req.userID →
      f.type ≠ "video/mp4" →
      handlerUploadVideo cfg req ox st =
        (.error (.badRequest "Unsupported video format"), st)) := by
  refine ⟨?_, ?_, ?_, ?_, ?_, ?_⟩
  · intro h
    rcases h with h | h <;> simp [handlerUploadVideo, h]
  · intro vid hid hvne hform
    simp [handlerUploadVideo, hid, hvne, hform]
  · intro vid f hid hvne hform hsz
    simp [handlerUploadVideo, hid, hvne, hform, hsz]
  · intro vid f hid hvne hform hsz hdb
    simp [handlerUploadVideo, hid, hvne, hform, hsz, hdb]
  · intro vid f v hid hvne hform hsz hdb howner
    simp [handlerUploadVideo, hid, hvne, hform, hsz, hdb, howner]
  · intro vid f v hid hvne hform hsz hdb howner htype
    simp [handlerUploadVideo, hid, hvne, hform, hsz, hdb, howner, htype]

/-- Witness for C2: the six failure classes on concrete requests, each
leaving the pre-state untouched. -/
theorem uploadVideo_precondition_order_witness :
    handlerUploadVideo cfgC reqNoId oxC stC =
      (.error (.badRequest "Invalid video ID"), stC)
  ∧ handlerUploadVideo cfgC reqNoFile oxC stC =
      (.error (.badRequest "Video is not a file"), stC)
  ∧ handlerUploadVideo cfgC reqBig oxC stC =
      (.error (.badRequest "Video is larger than 1GB"), stC)
  ∧ handlerUploadVideo cfgC reqC oxC stEmpty =
      (.error (.notFound "Video not found"), stEmpty)
  ∧ handlerUploadVideo cfgC reqWrongUser oxC stC =
      (.error (.userForbidden "Wrong user"), stC)
  ∧ handlerUploadVideo cfgC reqBadType oxC stC =
      (.error (.badRequest "Unsupported video format"), stC) :=
  ⟨(uploadVideo_precondition_order cfgC reqNoId oxC stC).1 (Or.inl rfl),
    (uploadVideo_precondition_order cfgC reqNoFile oxC stC).2.1 "v1" rfl
      (by decide) rfl,
    (uploadVideo_precondition_order cfgC reqBig oxC stC).2.2.1 "v1" fBig
      rfl (by decide) rfl (by decide),
    (uploadVideo_precondition_order cfgC reqC oxC stEmpty).2.2.2.1 "v1"
      fC rfl (by decide) rfl (by decide) rfl,
    (uploadVideo_precondition_order cfgC reqWrongUser oxC stC).2.2.2.2.1
      "v1" fC vidC rfl (by decide) rfl (by decide) rfl (by decide),
    (uploadVideo_precondition_order cfgC reqBadType oxC stC).2.2.2.2.2
      "v1" fBadType vidC rfl (by decide) rfl (by decide) rfl rfl
      (by decide)⟩

/-- C7: with the path parameter and file part present, the run fails
on size exactly when the declared size exceeds 2^30 bytes (so exactly
2^30 still passes the gate), and an oversized payload returns with the
pre-state unchanged — no StagedFile is ever created for it. -/
theorem uploadVideo_size_gate (cfg : ApiConfig) (req : UploadReq)
    (ox : Oracles) (st : St) (vid : String) (f : FilePart)
    (hid : req.videoId = some vid) (hvne : vid ≠ "")
    (hf : req.formVideo = some f) :
    ((handlerUploadVideo cfg req ox st).1 =
        .error (.badRequest "Video is larger than 1GB") ↔ 2 ^ 30 < f.size)
  ∧ (2 ^ 30 < f.size →
      handlerUploadVideo cfg req ox st =
        (.error (.badRequest "Video is larger than 1GB"), st)) := by
  have hmax : MAX_UPLOAD_SIZE = 2 ^ 30 := by decide
  have hrej : 2 ^ 30 < f.size →
      handlerUploadVideo cfg req ox st =
        (.error (.badRequest "Video is larger than 1GB"), st) := by
    intro hsz
    have hsz' : f.size > MAX_UPLOAD_SIZE := by omega
    simp [handlerUploadVideo, hid, hvne, hf, hsz']
  refine ⟨⟨?_, fun hsz => by rw [(hrej hsz)]⟩, hrej⟩
  intro hcon
  by_contra hsz
  have hsize' : ¬ f.size > MAX_UPLOAD_SIZE := by omega
  rcases hdb : getVideo st.db vid with _ | v
  · have hend : handlerUploadVideo cfg req ox st =
        (.error (.notFound "Video not found"), st) := by
      simp [handlerUploadVideo, hid, hvne, hf, hsize', hdb]
    rw [hend] at hcon
    exact absurd hcon (by simp)
  · by_cases ho : v.userID = req.userID
    · by_cases ht : f.type = "video/mp4"
      · rcases hpr : getVideoAspectRatio
            (mkTargetPath cfg (mkFileName ox.rand f.type)) ox.probe
            with e | pfx
        · have hend : handlerUploadVideo cfg req ox st =
              (.error e, { st with
                  localFs := insertA st.localFs
                    (mkTargetPath cfg (mkFileName ox.rand f.type))
                    f.content }) := by
            simp only [handlerUploadVideo, hid, hf, hdb]
            simp only [ht] at hpr
            simp [hvne, hsize', ho, ht, hpr, insertA]
          rw [hend] at hcon
          rcases getVideoAspectRatio_error_shape _ _ _ hpr with ⟨m, hm⟩
          simp only [hm] at hcon
          exact absurd hcon (by simp)
        · rcases hrx : ox.remux with diag | out
          · have hend := (uploadVideo_remux_failure cfg req ox st vid f v
              pfx diag hid hvne hf hsize' hdb ho ht hpr hrx).1
            rw [hend] at hcon
            exact absurd hcon (by simp)
          · have hend := uploadVideo_success_run cfg req ox st vid f v
              pfx out hid hvne hf hsize' hdb ho ht hpr hrx
            rw [hend] at hcon
            exact absurd hcon (by simp)
      · have hend : handlerUploadVideo cfg req ox st =
            (.error (.badRequest "Unsupported video format"), st) := by
          simp [handlerUploadVideo, hid, hvne, hf, hsize', hdb, ho, ht]
        rw [hend] at hcon
        exact absurd hcon (by simp)
    · have hend : handlerUploadVideo cfg req ox st =
          (.error (.userForbidden "Wrong user"), st) := by
        simp [handlerUploadVideo, hid, hvne, hf, hsize', hdb, ho]
      rw [hend] at hcon
      exact absurd hcon (by simp)

/-- Witness for C7: declared size exactly 2^30 passes the size gate,
one byte more is rejected with the state unchanged. -/
theorem uploadVideo_size_gate_witness :
    (((handlerUploadVideo cfgC reqBoundary oxC stC).1 =
        .error (.badRequest "Video is larger than 1GB") ↔
        2 ^ 30 < fBoundary.size)
  ∧ (2 ^ 30 < fBoundary.size →
      handlerUploadVideo cfgC reqBoundary oxC stC =
        (.error (.badRequest "Video is larger than 1GB"), stC)))
  ∧ handlerUploadVideo cfgC reqBig oxC stC =
      (.error (.badRequest "Video is larger than 1GB"), stC) :=
  ⟨uploadVideo_size_gate cfgC reqBoundary oxC stC "v1" fBoundary rfl
      (by decide) rfl,
    (uploadVideo_size_gate cfgC reqBig oxC stC "v1" fBig rfl (by decide)
      rfl).2 (by decide)⟩

/-- Witness for C1 on a concrete successful run (geometry class
`other`, remux output `[7, 7]` differing from the staged `[1, 2, 3]`). -/
theorem uploadVideo_storage_invariant_witness :
    (reqC.videoId = some "v1" ∧ reqC.formVideo = some fC ∧
      getVideo stC.db "v1" = some vidC ∧ oxC.remux = .ok [7, 7] ∧
      getVideoAspectRatio (mkTargetPath cfgC (mkFileName oxC.rand fC.type))
        oxC.probe = .ok "other") ∧
    ((handlerUploadVideo cfgC reqC oxC stC).1 =
      .ok (dbVideoToSignedVideo cfgC oxC.nonce
        { vidC with
            videoURL := some ("other" ++ "/" ++ mkFileName oxC.rand fC.type) })
  ∧ getVideo ((handlerUploadVideo cfgC reqC oxC stC).2).db "v1" =
      some { vidC with
              videoURL := some ("other" ++ "/" ++ mkFileName oxC.rand fC.type) }
  ∧ lookupA ((handlerUploadVideo cfgC reqC oxC stC).2).s3
      ("other" ++ "/" ++ mkFileName oxC.rand fC.type) = some [7, 7]
  ∧ (([7, 7] : Bytes) ≠ fC.content →
      lookupA ((handlerUploadVideo cfgC reqC oxC stC).2).s3
        ("other" ++ "/" ++ mkFileName oxC.rand fC.type) ≠
        some fC.content)) :=
  ⟨⟨rfl, rfl, rfl, rfl, rfl⟩,
    uploadVideo_storage_invariant cfgC reqC oxC stC "v1" fC vidC "other"
      [7, 7] rfl (by decide) rfl (by decide) rfl rfl rfl rfl rfl rfl⟩

/-- Witness for C5 on the same concrete successful run. -/
theorem uploadVideo_signed_view_witness :
    (reqC.videoId = some "v1" ∧ reqC.formVideo = some fC ∧
      getVideo stC.db "v1" = some vidC ∧ oxC.remux = .ok [7, 7]) ∧
    ((handlerUploadVideo cfgC reqC oxC stC).1 =
      .ok { vidC with
              videoURL := some (presignURL
                ("other" ++ "/" ++ mkFileName oxC.rand fC.type) 3600
                oxC.nonce) }
  ∧ getVideo ((handlerUploadVideo cfgC reqC oxC stC).2).db "v1" =
      some { vidC with
              videoURL := some ("other" ++ "/" ++ mkFileName oxC.rand fC.type) }
  ∧ presignURL ("other" ++ "/" ++ mkFileName oxC.rand fC.type) 3600
      oxC.nonce ≠ "other" ++ "/" ++ mkFileName oxC.rand fC.type) :=
  ⟨⟨rfl, rfl, rfl, rfl⟩,
    uploadVideo_signed_view cfgC reqC oxC stC "v1" fC vidC "other"
      [7, 7] rfl (by decide) rfl (by decide) rfl rfl rfl rfl rfl rfl⟩
